import Mathlib

/-!
Shallow embedding of the grammar-gender practice subsystem of
`src/app.py` (question bank, session tracker, answer scorer, results
aggregator).  SQLite tables become lists of records, each Flask handler
becomes a pure function threading the database state, and the random
question pick of `ORDER BY RANDOM() LIMIT 1` becomes an explicit index
parameter.  Python `round` of a quotient of two integers (banker's
rounding, applied to the exact quotient rather than its floating-point
approximation) is modelled by `pyRoundDiv` on `Int`.
-/

deriving instance DecidableEq for Except

namespace GrammarGender

/-- Python `round(n / d)` for integers `n` and `d > 0`, computed on the
exact quotient: floor, then round half to even.  `Int.fdiv` is floor
division, so `r = n - d * f` is the numerator of the fractional part and
comparing `2 * r` with `d` compares the fractional part with 1/2. -/
def pyRoundDiv (n d : Int) : Int :=
  let f : Int := Int.fdiv n d
  let r : Int := n - d * f
  if 2 * r < d then f
  else if d < 2 * r then f + 1
  else if f % 2 = 0 then f else f + 1

/-- Row of `grammar_gender_questions` (src/app.py lines 236-249).
`genre_du_nom` is a string, `'masculin'` or `'féminin'` by the CHECK
constraint; `terminaisons` and the usage examples are nullable TEXT. -/
structure Question where
  id : Nat
  nom : String
  genre_du_nom : String
  niveau_difficulte : Int
  exemple_usage_courant : Option String
  exemple_usage_litteraire : Option String
  exemple_usage_universitaire : Option String
  terminaisons : Option String
deriving Repr, DecidableEq

/-- Row of `grammar_gender_sessions` (src/app.py lines 252-266).
Defaults: score 0, status `'active'`, `completed_at` NULL.  Timestamps
are modelled as natural numbers. -/
structure SessionRow where
  id : Nat
  user_id : Nat
  session_type : String
  questions_count : Int
  score : Int
  total_questions : Int
  status : String
  completed_at : Option Nat
deriving Repr, DecidableEq

/-- Row of `grammar_gender_attempts` (src/app.py lines 269-283).  The
table has no uniqueness constraint on (session_id, question_id). -/
structure AttemptRow where
  id : Nat
  session_id : Nat
  question_id : Nat
  user_answer : String
  is_correct : Bool
  time_taken : Int
  hints_used : Int
  score : Int
deriving Repr, DecidableEq

/-- The SQLite database state restricted to the three tables the
subsystem touches.  `next_session_id` / `next_attempt_id` model the
AUTOINCREMENT counters. -/
structure DB where
  questions : List Question
  sessions : List SessionRow
  attempts : List AttemptRow
  next_session_id : Nat
  next_attempt_id : Nat
deriving Repr, DecidableEq

/-- `SELECT ... FROM grammar_gender_questions WHERE id = ?`. -/
def findQuestion (db : DB) (qid : Nat) : Option Question :=
  db.questions.find? (fun q => q.id == qid)

/-- `SELECT ... FROM grammar_gender_sessions WHERE id = ?`. -/
def findSession (db : DB) (sid : Nat) : Option SessionRow :=
  db.sessions.find? (fun s => s.id == sid)

/-- `SELECT * FROM grammar_gender_sessions WHERE id = ? AND user_id = ?`. -/
def findUserSession (db : DB) (sid uid : Nat) : Option SessionRow :=
  db.sessions.find? (fun s => s.id == sid && s.user_id == uid)

/-- `SELECT ... FROM grammar_gender_attempts WHERE session_id = ?`
(in insertion order, which is how `ORDER BY ga.attempted_at` reads
back rows inserted with the monotone timestamp model). -/
def attemptsOf (db : DB) (sid : Nat) : List AttemptRow :=
  db.attempts.filter (fun a => a.session_id == sid)

/-- Python `str.lower` restricted to the ASCII range, which is all the
case-insensitive gender comparison distinguishes for the stored values
`'masculin'` / `'féminin'` (the accented characters are unaffected by
lowercasing). -/
def pyLower (s : String) : String := String.mk (s.data.map Char.toLower)

/-- `start_grammar_gender_practice` (src/app.py lines 1600-1623): inserts
a session row with `questions_count` and `total_questions` both set to
the requested count, and the schema defaults score 0 / status active.
The handler performs no validation of the count. -/
def start_grammar_gender_practice (user_id : Nat) (questions_count : Int)
    (db : DB) : Nat × DB :=
  let sid := db.next_session_id
  let row : SessionRow :=
    { id := sid, user_id := user_id, session_type := "practice",
      questions_count := questions_count, score := 0,
      total_questions := questions_count, status := "active",
      completed_at := none }
  (sid, { db with sessions := db.sessions ++ [row],
                  next_session_id := sid + 1 })

/-- Outcome of the `grammar_gender_question` page handler. -/
inductive QuestionPage where
  /-- session not owned / not found: flash and redirect. -/
  | sessionNotFound : QuestionPage
  /-- no unanswered question remains: redirect to the results page. -/
  | toResults : QuestionPage
  /-- unhandled ZeroDivisionError computing the progress percentage when
  `total_questions = 0`. -/
  | zeroDivision : QuestionPage
  /-- a question is served, with the progress numbers passed to the
  template. -/
  | page (q : Question) (current : Int) (total : Int) (percentage : Int) :
      QuestionPage
deriving Repr, DecidableEq

/-- The subquery of `grammar_gender_question`: `SELECT gq.* FROM
grammar_gender_questions gq WHERE gq.id NOT IN (SELECT question_id FROM
grammar_gender_attempts WHERE session_id = ?)`. -/
def unansweredQuestions (db : DB) (sid : Nat) : List Question :=
  db.questions.filter (fun q =>
    !(db.attempts.any (fun a =>
      a.session_id == sid && a.question_id == q.id)))

/-- `grammar_gender_question` (src/app.py lines 1625-1675): verify the
session belongs to the user, pick a random question with no attempt in
this session (`ORDER BY RANDOM() LIMIT 1` modelled by the index `pick`
into the unanswered list), redirect to results when none remains, else
render with progress `answered_count + 1` of `session_data[3]` — which
under the sessions schema is the `questions_count` column, the
denominator of the progress percentage (ZeroDivisionError when it is
zero).  The handler only runs SELECT statements. -/
def grammar_gender_question (session_id user_id pick : Nat) (db : DB) :
    QuestionPage × DB :=
  match findUserSession db session_id user_id with
  | none => (.sessionNotFound, db)
  | some sdata =>
    let unanswered := unansweredQuestions db session_id
    match unanswered.get? (pick % unanswered.length) with
    | none => (.toResults, db)
    | some q =>
      let answered_count : Int := (attemptsOf db session_id).length
      if sdata.questions_count = 0 then (.zeroDivision, db)
      else
        (.page q (answered_count + 1) sdata.questions_count
          (pyRoundDiv (answered_count * 100) sdata.questions_count),
         db)

/-- JSON payload returned by `submit_grammar_gender_answer`
(`session_complete` also decides `next_url`: results page when true,
next question page when false). -/
structure SubmitResponse where
  is_correct : Bool
  correct_answer : String
  user_answer : String
  word : String
  points_earned : Int
  explanation : Option String
  session_complete : Bool
deriving Repr, DecidableEq

/-- How a submission can fail.  The handler itself never produces
`notFoundSurfaced`; it is the structured "not found" condition the
specification describes, kept here so that claims about it can be
stated.  `typeError` is the unhandled Python `TypeError` raised by
subscripting the `None` returned by `fetchone()` on a missing row. -/
inductive SubmitError where
  | notFoundSurfaced : SubmitError
  | duplicateSubmission : SubmitError
  | typeError : SubmitError
deriving Repr, DecidableEq

/-- The `INSERT INTO grammar_gender_attempts ...` statement: append a
row and advance the AUTOINCREMENT counter. -/
def insertAttempt (db : DB) (att : AttemptRow) : DB :=
  { db with attempts := db.attempts ++ [att],
            next_attempt_id := db.next_attempt_id + 1 }

/-- The `UPDATE grammar_gender_sessions SET score = score + ? WHERE
id = ?` statement (a no-op when no row matches). -/
def addScore (db : DB) (sid : Nat) (pts : Int) : DB :=
  { db with sessions := db.sessions.map (fun s =>
      if s.id == sid then { s with score := s.score + pts } else s) }

/-- The `UPDATE grammar_gender_sessions SET status = 'completed',
completed_at = CURRENT_TIMESTAMP WHERE id = ?` statement. -/
def completeSession (db : DB) (sid : Nat) (now : Nat) : DB :=
  { db with sessions := db.sessions.map (fun s =>
      if s.id == sid then
        { s with status := "completed", completed_at := some now }
      else s) }

/-- `submit_grammar_gender_answer` (src/app.py lines 1677-1760).
Steps, in source order: fetch the question row (subscripting `None`
raises TypeError when the id is unknown); case-insensitive comparison
against `genre_du_nom`; `question_score = 10 - hints_used * 5`, zeroed
only when incorrect (no clamp at 0); INSERT the attempt (no duplicate
check); `UPDATE ... SET score = score + ?` on the session (a no-op when
no row matches); re-count the session's attempts; fetch
`total_questions` (TypeError when the session row is missing — the
transaction was never committed, so an error outcome leaves the
persistent state unchanged); when `answered_count >= total_questions`,
set status `'completed'` and overwrite `completed_at` with the current
timestamp, modelled by the `now` argument. -/
def submit_grammar_gender_answer (session_id question_id : Nat)
    (user_answer : String) (time_taken hints_used : Int) (now : Nat)
    (db : DB) : Except SubmitError (SubmitResponse × DB) :=
  match findQuestion db question_id with
  | none => .error .typeError
  | some qd =>
    let correct_answer := qd.genre_du_nom
    let is_correct := pyLower user_answer == pyLower correct_answer
    let question_score : Int :=
      if is_correct then 10 - hints_used * 5 else 0
    let att : AttemptRow :=
      { id := db.next_attempt_id, session_id := session_id,
        question_id := question_id, user_answer := user_answer,
        is_correct := is_correct, time_taken := time_taken,
        hints_used := hints_used, score := question_score }
    let db2 : DB := addScore (insertAttempt db att) session_id question_score
    let answered_count : Int := (attemptsOf db2 session_id).length
    match findSession db2 session_id with
    | none => .error .typeError
    | some srow =>
      let session_complete := answered_count >= srow.total_questions
      let resp : SubmitResponse :=
        { is_correct := is_correct, correct_answer := correct_answer,
          user_answer := user_answer, word := qd.nom,
          points_earned := question_score,
          explanation := qd.terminaisons,
          session_complete := session_complete }
      let db3 : DB :=
        if session_complete then completeSession db2 session_id now else db2
      .ok (resp, db3)

/-- The statistics dictionary built by `grammar_gender_results`
(src/app.py lines 1794-1817).  `score` is the count of correct
answers. -/
structure ResultsView where
  score : Int
  total : Int
  percentage : Int
  total_points : Int
  max_possible_points : Int
  points_percentage : Int
  total_time : Int
  total_hints : Int
  avg_time : Int
deriving Repr, DecidableEq

/-- Outcome of the `grammar_gender_results` page handler. -/
inductive ResultsOutcome where
  /-- session not owned / not found: flash and redirect. -/
  | notFound : ResultsOutcome
  /-- unhandled TypeError: `total_points = sum(attempt[8] ...)` adds the
  `attempted_at` TEXT column to the integer 0. -/
  | typeError : ResultsOutcome
  /-- the statistics dictionary is rendered. -/
  | page (r : ResultsView) : ResultsOutcome
deriving Repr, DecidableEq

/-- `sum(attempt[8] if len(attempt) > 8 else 0 for attempt in attempts)`
(src/app.py line 1797).  The row is `ga.*` (9 columns) joined with 3
question columns, so the `len > 8` guard passes and `attempt[8]` is the
`attempted_at` column of the CREATE TABLE at lines 269-283 — a TEXT
timestamp that is never NULL (DEFAULT CURRENT_TIMESTAMP).  Python's
`sum` starts from the integer 0 and raises TypeError on the first
string it adds, so the sum is 0 for an empty list and an error
otherwise. -/
def pySumAttemptedAt (l : List AttemptRow) : Option Int :=
  match l with
  | [] => some 0
  | _ :: _ => none

/-- `grammar_gender_results` (src/app.py lines 1762-1819): ownership
check, then aggregation over the session's attempts in source order:
`attempt[4]` is `is_correct` and `attempt[5]` is `time_taken`, but
`attempt[8]` — read as the points — is the `attempted_at` TEXT column
under the schema this file creates, so computing `total_points` raises
TypeError for any session with at least one attempt; the remaining
statistics (with `attempt[7]`, read as the hints, actually the `score`
column, and every `if total > 0 else 0` guard and the truthiness guard
`attempt[5] if attempt[5] else 0` kept) are only ever reached with zero
attempts. -/
def grammar_gender_results (session_id user_id : Nat) (db : DB) :
    ResultsOutcome :=
  match findUserSession db session_id user_id with
  | none => .notFound
  | some _ =>
    let attempts := attemptsOf db session_id
    let total_questions : Int := attempts.length
    let correct_answers : Int := (attempts.filter (fun a => a.is_correct)).length
    match pySumAttemptedAt attempts with
    | none => .typeError
    | some total_points =>
      let max_possible_points : Int := total_questions * 10
      let total_time : Int :=
        (attempts.map (fun a => if a.time_taken = 0 then 0 else a.time_taken)).sum
      let total_hints : Int := (attempts.map (fun a => a.score)).sum
      let percentage : Int :=
        if total_questions > 0 then
          pyRoundDiv (correct_answers * 100) total_questions
        else 0
      let points_percentage : Int :=
        if max_possible_points > 0 then
          pyRoundDiv (total_points * 100) max_possible_points
        else 0
      let avg_time : Int :=
        if total_questions > 0 then pyRoundDiv total_time total_questions
        else 0
      .page { score := correct_answers, total := total_questions,
              percentage := percentage, total_points := total_points,
              max_possible_points := max_possible_points,
              points_percentage := points_percentage,
              total_time := total_time, total_hints := total_hints,
              avg_time := avg_time }

/-- Database state after a successful submission (the state on error is
unchanged, since the transaction is never committed). -/
def okDB (r : Except SubmitError (SubmitResponse × DB)) (d : DB) : DB :=
  match r with
  | .ok p => p.2
  | .error _ => d

/-- Response payload of a successful submission. -/
def okResp (r : Except SubmitError (SubmitResponse × DB)) :
    Option SubmitResponse :=
  match r with
  | .ok p => some p.1
  | .error _ => none

/-- A question-bank row with only the identifying fields filled in. -/
def mkQuestion (i : Nat) (n g : String) : Question :=
  { id := i, nom := n, genre_du_nom := g, niveau_difficulte := 1,
    exemple_usage_courant := none, exemple_usage_litteraire := none,
    exemple_usage_universitaire := none, terminaisons := none }

/-- Three-question bank used by the concrete scenarios. -/
def bank3 : List Question :=
  [mkQuestion 1 "chat" "masculin", mkQuestion 2 "maison" "féminin",
   mkQuestion 3 "livre" "masculin"]

/-- Fresh database: the seeded bank, no sessions, no attempts. -/
def emptyDB : DB :=
  { questions := bank3, sessions := [], attempts := [],
    next_session_id := 1, next_attempt_id := 1 }

/-- Database after user 7 starts a practice session requesting `count`
questions; the new session has id 1. -/
def dbS (count : Int) : DB :=
  (start_grammar_gender_practice 7 count emptyDB).2

/-- One-question session, answered correctly without hints at time 100:
the session reaches `completed` with score 10. -/
def dbAfter1 : DB :=
  okDB (submit_grammar_gender_answer 1 1 "masculin" 5 0 100 (dbS 1)) (dbS 1)

/-- A further submission (question 2) into the already-completed
one-question session, at time 200. -/
def dbAfter2 : DB :=
  okDB (submit_grammar_gender_answer 1 2 "féminin" 5 0 200 dbAfter1) dbAfter1

/-- Two-question session after answering question 1 correctly. -/
def dbDup1 : DB :=
  okDB (submit_grammar_gender_answer 1 1 "masculin" 5 0 100 (dbS 2)) (dbS 2)

/-- The same (session, question) pair submitted a second time. -/
def dbDup2 : DB :=
  okDB (submit_grammar_gender_answer 1 1 "masculin" 5 0 110 dbDup1) dbDup1

/-- One-question session answered correctly with 3 hints. -/
def dbNeg : DB :=
  okDB (submit_grammar_gender_answer 1 1 "masculin" 5 3 100 (dbS 1)) (dbS 1)

/-- Two-question session submitted with `hints_used = -1`. -/
def dbNegHints : DB :=
  okDB (submit_grammar_gender_answer 1 1 "masculin" 5 (-1) 100 (dbS 2)) (dbS 2)

/-- Three-question session: question 1 answered correctly, then 2 and 3
incorrectly, with times 3, 4 and 5 seconds. -/
def dbRes : DB :=
  let d0 := dbS 3
  let d1 := okDB (submit_grammar_gender_answer 1 1 "masculin" 3 0 10 d0) d0
  let d2 := okDB (submit_grammar_gender_answer 1 2 "masculin" 4 0 20 d1) d1
  okDB (submit_grammar_gender_answer 1 3 "féminin" 5 0 30 d2) d2

/-- What the specification's scoring rule literally says:
`max(0, 10 − 5×hints_used)` when correct, `0` when incorrect.  Stated
from the spec's words, to be compared against the handler. -/
def specPoints (is_correct : Bool) (hints_used : Int) : Int :=
  if is_correct then max 0 (10 - 5 * hints_used) else 0

/-! Helper lemmas about the SQL-statement building blocks. -/

/-- Score/attempt-sum coherence: every session row's score equals the
sum of the scores of that session's attempt rows. -/
def sessionScoreInvariant (db : DB) : Prop :=
  ∀ s ∈ db.sessions,
    s.score = ((attemptsOf db s.id).map (fun a => a.score)).sum

/-- The response returned for a correct answer with 3 hints on the
one-question session (points −5). -/
def respNeg : SubmitResponse :=
  { is_correct := true, correct_answer := "masculin",
    user_answer := "masculin", word := "chat", points_earned := -5,
    explanation := none, session_complete := true }

/-- The response returned for the correct no-hint answer that completes
the one-question session. -/
def resp10 : SubmitResponse :=
  { is_correct := true, correct_answer := "masculin",
    user_answer := "masculin", word := "chat", points_earned := 10,
    explanation := none, session_complete := true }

lemma id_of_addScoreFun (sid : Nat) (pts : Int) (s : SessionRow) :
    (if s.id == sid then { s with score := s.score + pts } else s).id = s.id := by
  by_cases h : s.id == sid <;> simp [h]

lemma find?_map_id_preserving (f : SessionRow → SessionRow)
    (hf : ∀ s, (f s).id = s.id) (l : List SessionRow) (sid : Nat) :
    (l.map f).find? (fun s => s.id == sid) =
      (l.find? (fun s => s.id == sid)).map f := by
  rw [List.find?_map]
  have hp : ((fun s : SessionRow => s.id == sid) ∘ f) =
      (fun s : SessionRow => s.id == sid) := by
    funext s
    simp [Function.comp, hf]
  rw [hp]

lemma findSession_addScore (db : DB) (sid target : Nat) (pts : Int) :
    findSession (addScore db sid pts) target =
      (findSession db target).map (fun s =>
        if s.id == sid then { s with score := s.score + pts } else s) := by
  unfold findSession addScore
  exact find?_map_id_preserving _ (id_of_addScoreFun sid pts) _ _

lemma findSession_insertAttempt (db : DB) (att : AttemptRow) (t : Nat) :
    findSession (insertAttempt db att) t = findSession db t := rfl

lemma attemptsOf_insertAttempt (db : DB) (att : AttemptRow) (sid : Nat) :
    attemptsOf (insertAttempt db att) sid =
      attemptsOf db sid ++ (if att.session_id = sid then [att] else []) := by
  unfold attemptsOf insertAttempt
  rw [List.filter_append]
  congr 1
  rw [List.filter_cons]
  by_cases h : att.session_id = sid <;> simp [h]

lemma attemptsOf_addScore (db : DB) (sid : Nat) (pts : Int) (t : Nat) :
    attemptsOf (addScore db sid pts) t = attemptsOf db t := rfl

lemma total_questions_addScoreFun (sid : Nat) (pts : Int) (s : SessionRow) :
    (if s.id == sid then { s with score := s.score + pts } else s).total_questions
      = s.total_questions := by
  by_cases h : s.id == sid <;> simp [h]

lemma insertAttempt_questions (db : DB) (att : AttemptRow) :
    (insertAttempt db att).questions = db.questions := rfl

lemma addScore_questions (db : DB) (sid : Nat) (pts : Int) :
    (addScore db sid pts).questions = db.questions := rfl

lemma completeSession_questions (db : DB) (sid now : Nat) :
    (completeSession db sid now).questions = db.questions := rfl

lemma insertAttempt_sessions (db : DB) (att : AttemptRow) :
    (insertAttempt db att).sessions = db.sessions := rfl

lemma addScore_sessions (db : DB) (sid : Nat) (pts : Int) :
    (addScore db sid pts).sessions = db.sessions.map (fun s =>
      if s.id == sid then { s with score := s.score + pts } else s) := rfl

lemma completeSession_sessions (db : DB) (sid now : Nat) :
    (completeSession db sid now).sessions = db.sessions.map (fun s =>
      if s.id == sid then
        { s with status := "completed", completed_at := some now }
      else s) := rfl

lemma insertAttempt_attempts (db : DB) (att : AttemptRow) :
    (insertAttempt db att).attempts = db.attempts ++ [att] := rfl

lemma addScore_attempts (db : DB) (sid : Nat) (pts : Int) :
    (addScore db sid pts).attempts = db.attempts := rfl

lemma completeSession_attempts (db : DB) (sid now : Nat) :
    (completeSession db sid now).attempts = db.attempts := rfl

lemma insertAttempt_nsid (db : DB) (att : AttemptRow) :
    (insertAttempt db att).next_session_id = db.next_session_id := rfl

lemma addScore_nsid (db : DB) (sid : Nat) (pts : Int) :
    (addScore db sid pts).next_session_id = db.next_session_id := rfl

lemma completeSession_nsid (db : DB) (sid now : Nat) :
    (completeSession db sid now).next_session_id = db.next_session_id := rfl

lemma insertAttempt_naid (db : DB) (att : AttemptRow) :
    (insertAttempt db att).next_attempt_id = db.next_attempt_id + 1 := rfl

lemma addScore_naid (db : DB) (sid : Nat) (pts : Int) :
    (addScore db sid pts).next_attempt_id = db.next_attempt_id := rfl

lemma completeSession_naid (db : DB) (sid now : Nat) :
    (completeSession db sid now).next_attempt_id = db.next_attempt_id := rfl

/-- Elimination principle for a successful submission: the question and
session rows existed, the response fields are the computed values, and
the database changed by exactly one appended attempt row plus the score
(and, when complete, status) update of the matching session rows. -/
lemma submit_ok_spec {session_id question_id : Nat} {user_answer : String}
    {time_taken hints_used : Int} {now : Nat} {db : DB}
    {resp : SubmitResponse} {db' : DB}
    (h : submit_grammar_gender_answer session_id question_id user_answer
      time_taken hints_used now db = .ok (resp, db')) :
    ∃ qd s0, findQuestion db question_id = some qd ∧
      findSession db session_id = some s0 ∧
      resp.is_correct = (pyLower user_answer == pyLower qd.genre_du_nom) ∧
      resp.correct_answer = qd.genre_du_nom ∧
      resp.points_earned = (if resp.is_correct then 10 - hints_used * 5 else 0) ∧
      (resp.session_complete = true ↔
        (((attemptsOf db session_id).length : Int) + 1 ≥ s0.total_questions)) ∧
      db'.questions = db.questions ∧
      db'.next_session_id = db.next_session_id ∧
      db'.next_attempt_id = db.next_attempt_id + 1 ∧
      db'.attempts = db.attempts ++
        [{ id := db.next_attempt_id, session_id := session_id,
           question_id := question_id, user_answer := user_answer,
           is_correct := resp.is_correct, time_taken := time_taken,
           hints_used := hints_used, score := resp.points_earned }] ∧
      db'.sessions = db.sessions.map (fun s =>
        if s.id == session_id then
          { s with score := s.score + resp.points_earned,
                   status := if resp.session_complete then "completed"
                             else s.status,
                   completed_at := if resp.session_complete then some now
                                   else s.completed_at }
        else s) := by
  unfold submit_grammar_gender_answer at h
  cases hq : findQuestion db question_id with
  | none => rw [hq] at h; cases h
  | some qd =>
    rw [hq] at h
    dsimp only at h
    rw [findSession_addScore, findSession_insertAttempt] at h
    cases hs : findSession db session_id with
    | none => rw [hs] at h; cases h
    | some s0 =>
      rw [hs] at h
      dsimp only [Option.map] at h
      simp only [Except.ok.injEq, Prod.mk.injEq] at h
      obtain ⟨hr, hd⟩ := h
      subst hr
      subst hd
      refine ⟨qd, s0, rfl, rfl, rfl, rfl, rfl, ?_, ?_, ?_, ?_, ?_, ?_⟩
      · simp only [decide_eq_true_eq, attemptsOf_addScore,
          attemptsOf_insertAttempt, total_questions_addScoreFun]
        simp [List.length_append]
      · rw [apply_ite DB.questions, completeSession_questions,
          addScore_questions, insertAttempt_questions, ite_self]
      · rw [apply_ite DB.next_session_id, completeSession_nsid,
          addScore_nsid, insertAttempt_nsid, ite_self]
      · rw [apply_ite DB.next_attempt_id, completeSession_naid,
          addScore_naid, insertAttempt_naid, ite_self]
      · rw [apply_ite DB.attempts, completeSession_attempts,
          addScore_attempts, insertAttempt_attempts, ite_self]
      · simp only [apply_ite DB.sessions, completeSession_sessions,
          addScore_sessions, insertAttempt_sessions, attemptsOf_addScore,
          attemptsOf_insertAttempt, total_questions_addScoreFun,
          List.length_append, List.map_map, if_true,
          List.length_singleton, decide_eq_true_eq]
        by_cases hc :
          ((((attemptsOf db session_id).length + 1 : Nat) : Int) ≥
            s0.total_questions)
        · simp only [if_pos hc, hc, if_true]
          refine List.map_congr_left ?_
          intro s _
          by_cases hsid : s.id == session_id <;>
            simp [Function.comp, hsid]
        · simp only [if_neg hc, hc, if_false]

/-- A submission whose question id matches no question row raises the
unhandled TypeError immediately (before any write). -/
lemma submit_error_of_no_question {session_id question_id : Nat}
    {user_answer : String} {time_taken hints_used : Int} {now : Nat}
    {db : DB} (hq : findQuestion db question_id = none) :
    submit_grammar_gender_answer session_id question_id user_answer
      time_taken hints_used now db = .error .typeError := by
  unfold submit_grammar_gender_answer
  rw [hq]

/-- A submission whose session id matches no session row raises the
unhandled TypeError when reading `total_questions`; the transaction is
never committed, so no state change persists. -/
lemma submit_error_of_no_session {session_id question_id : Nat}
    {user_answer : String} {time_taken hints_used : Int} {now : Nat}
    {db : DB} (hs : findSession db session_id = none) :
    submit_grammar_gender_answer session_id question_id user_answer
      time_taken hints_used now db = .error .typeError := by
  unfold submit_grammar_gender_answer
  cases hq : findQuestion db question_id with
  | none => rfl
  | some qd =>
    dsimp only
    rw [findSession_addScore, findSession_insertAttempt, hs]
    rfl

/-- When both referenced rows exist, the submission always succeeds —
whatever the answer string and hint count are. -/
lemma submit_ok_of_found {session_id question_id : Nat}
    {user_answer : String} {time_taken hints_used : Int} {now : Nat}
    {db : DB} {qd : Question} {s0 : SessionRow}
    (hq : findQuestion db question_id = some qd)
    (hs : findSession db session_id = some s0) :
    ∃ resp db', submit_grammar_gender_answer session_id question_id
      user_answer time_taken hints_used now db = .ok (resp, db') := by
  unfold submit_grammar_gender_answer
  rw [hq]
  dsimp only
  rw [findSession_addScore, findSession_insertAttempt, hs]
  exact ⟨_, _, rfl⟩

/-- Indexing a list at `k % length` misses exactly when the list is
empty (the model of `ORDER BY RANDOM() LIMIT 1` returning no row). -/
lemma get?_mod_eq_none_iff {α : Type} (l : List α) (k : Nat) :
    l.get? (k % l.length) = none ↔ l = [] := by
  cases l with
  | nil => simp
  | cons a as =>
    simp only [List.get?_eq_none]
    constructor
    · intro hle
      exact absurd hle (Nat.not_le.mpr (Nat.mod_lt _ (Nat.succ_pos _)))
    · intro h
      cases h

/-- The unanswered-question list is empty exactly when every bank
question already has an attempt in the session. -/
lemma unansweredQuestions_nil_iff (db : DB) (sid : Nat) :
    unansweredQuestions db sid = [] ↔
      ∀ q ∈ db.questions, ∃ a ∈ db.attempts,
        a.session_id = sid ∧ a.question_id = q.id := by
  unfold unansweredQuestions
  rw [List.filter_eq_nil_iff]
  simp [List.any_eq_true]

lemma attemptsOf_eq_of_attempts_append {db' db : DB} {att : AttemptRow}
    (h : db'.attempts = db.attempts ++ [att]) (x : Nat) :
    attemptsOf db' x =
      attemptsOf db x ++ (if att.session_id = x then [att] else []) := by
  unfold attemptsOf
  rw [h, List.filter_append]
  congr 1
  rw [List.filter_cons]
  by_cases hx : att.session_id = x <;> simp [hx]

/-- C10: fetching the next question mutates no persistent state — the
database returned by `grammar_gender_question` is the input database in
every branch, whether the session is missing, a question is served, or
the caller is routed to results (the handler only runs SELECTs). -/
theorem question_page_no_mutation (session_id user_id pick : Nat)
    (db : DB) :
    (grammar_gender_question session_id user_id pick db).2 = db := by
  unfold grammar_gender_question
  cases findUserSession db session_id user_id with
  | none => rfl
  | some sdata =>
    dsimp only
    cases (unansweredQuestions db session_id).get?
        (pick % (unansweredQuestions db session_id).length) with
    | none => rfl
    | some q =>
      dsimp only
      split <;> rfl

/-- C9 (amended): a submission referencing an unknown question id, or an
unknown session id, fails fast — with the unhandled TypeError from
subscripting the missing row, rather than a structured not-found — and
since the transaction is never committed, an error outcome carries no
database state: no attempt row and no session change persists. -/
theorem unknown_refs_fail_fast :
    (∀ (session_id question_id : Nat) (ua : String) (tt hu : Int)
      (now : Nat) (db : DB), findQuestion db question_id = none →
      submit_grammar_gender_answer session_id question_id ua tt hu now db =
        .error .typeError) ∧
    (∀ (session_id question_id : Nat) (ua : String) (tt hu : Int)
      (now : Nat) (db : DB), findSession db session_id = none →
      submit_grammar_gender_answer session_id question_id ua tt hu now db =
        .error .typeError) :=
  ⟨fun _ _ _ _ _ _ _ hq => submit_error_of_no_question hq,
   fun _ _ _ _ _ _ _ hs => submit_error_of_no_session hs⟩

/-- C9 counterexample to the claim as stated: at a concrete unknown
question id (99) the failure is the unhandled `typeError`, not the
structured `notFoundSurfaced` condition the claim describes. -/
theorem unknown_refs_type_error_cex :
    submit_grammar_gender_answer 1 99 "féminin" 4 0 100 (dbS 1) =
      .error .typeError ∧
    submit_grammar_gender_answer 1 99 "féminin" 4 0 100 (dbS 1) ≠
      .error .notFoundSurfaced := by
  decide

/-- Witness for C9's theorem at concrete inputs: question id 99 is
unknown, and session id 55 is unknown, in `dbS 1`. -/
theorem unknown_refs_fail_fast_witness :
    submit_grammar_gender_answer 1 99 "masculin" 5 0 100 (dbS 1) =
      .error .typeError ∧
    submit_grammar_gender_answer 55 1 "masculin" 5 0 100 (dbS 1) =
      .error .typeError :=
  ⟨unknown_refs_fail_fast.1 1 99 "masculin" 5 0 100 (dbS 1) (by decide),
   unknown_refs_fail_fast.2 55 1 "masculin" 5 0 100 (dbS 1) (by decide)⟩

/-- C6: on a session with zero attempts the results summary renders all
zeros — accuracy 0, total points 0, average time 0 — and the `total >
0` guards avoid any division by zero (with no attempt row, the
misindexed `attempt[8]` sum is the empty sum 0 and raises nothing). -/
theorem results_zero_attempts (session_id user_id : Nat) (db : DB)
    (sdata : SessionRow)
    (h1 : findUserSession db session_id user_id = some sdata)
    (h2 : attemptsOf db session_id = []) :
    grammar_gender_results session_id user_id db = ResultsOutcome.page
      { score := 0, total := 0, percentage := 0, total_points := 0,
        max_possible_points := 0, points_percentage := 0, total_time := 0,
        total_hints := 0, avg_time := 0 } := by
  unfold grammar_gender_results
  rw [h1]
  dsimp only
  rw [h2]
  rfl

/-- Witness for C6 on the freshly created one-question session. -/
theorem results_zero_attempts_witness :
    grammar_gender_results 1 7 (dbS 1) = ResultsOutcome.page
      { score := 0, total := 0, percentage := 0, total_points := 0,
        max_possible_points := 0, points_percentage := 0, total_time := 0,
        total_hints := 0, avg_time := 0 } :=
  results_zero_attempts 1 7 (dbS 1)
    { id := 1, user_id := 7, session_type := "practice",
      questions_count := 1, score := 0, total_questions := 1,
      status := "active", completed_at := none }
    (by decide) (by decide)

/-- C1 counterexample: a correct answer submitted with 3 hints records
points −5, while the claimed formula max(0, 10 − 5×hints_used) gives 0 —
the recorded points are negative, so the claim fails. -/
theorem points_clamp_cex :
    (okResp (submit_grammar_gender_answer 1 1 "masculin" 5 3 100 (dbS 1))).map
        (fun r => (r.is_correct, r.points_earned)) = some (true, -5) ∧
    specPoints true 3 = 0 ∧ ((-5 : Int) ≠ 0) := by
  decide

/-- C1 (amended): for every successful submission the points are
10 − 5×hints_used when correct and 0 when incorrect, with no clamping
at zero, and the appended attempt row records exactly these points. -/
theorem points_formula_no_clamp (session_id question_id : Nat)
    (ua : String) (tt hu : Int) (now : Nat) (db : DB)
    (resp : SubmitResponse) (db' : DB)
    (h : submit_grammar_gender_answer session_id question_id ua tt hu now db
      = .ok (resp, db')) :
    resp.points_earned = (if resp.is_correct then 10 - hu * 5 else 0) ∧
    ∃ a, db'.attempts = db.attempts ++ [a] ∧ a.score = resp.points_earned ∧
      a.is_correct = resp.is_correct ∧ a.hints_used = hu := by
  obtain ⟨qd, s0, _, _, _, _, hpts, _, _, _, _, hatts, _⟩ :=
    submit_ok_spec h
  exact ⟨hpts, ⟨_, hatts, rfl, rfl, rfl⟩⟩

/-- Witness for C1's amended theorem at the hints=3 submission. -/
theorem points_formula_no_clamp_witness :
    respNeg.points_earned = (if respNeg.is_correct then 10 - 3 * 5 else 0) ∧
    ∃ a, dbNeg.attempts = (dbS 1).attempts ++ [a] ∧
      a.score = respNeg.points_earned ∧ a.is_correct = respNeg.is_correct ∧
      a.hints_used = 3 :=
  points_formula_no_clamp 1 1 "masculin" 5 3 100 (dbS 1) respNeg dbNeg
    (by decide)

/-- C2: evaluated at the failing input — the second submission for the
already-answered pair (session 1, question 1) — the code accepts the
duplicate: it succeeds, leaves two attempt rows for the pair, and
doubles the session score to 20 instead of rejecting a conflict. -/
theorem duplicate_submission_accepted :
    (okResp (submit_grammar_gender_answer 1 1 "masculin" 5 0 110 dbDup1)).isSome
      = true ∧
    ((attemptsOf dbDup2 1).filter (fun a => a.question_id == 1)).length = 2 ∧
    (findSession dbDup2 1).map (fun s => s.score) = some 20 := by
  decide

/-- C3 counterexample: the one-question session is already completed
(1 attempt = total_questions), yet the question endpoint still serves a
question instead of routing to results, and a further submission is
accepted — leaving 2 attempts, exceeding total_questions = 1. -/
theorem answered_exceeds_requested_cex :
    (grammar_gender_question 1 7 0 dbAfter1).1 ≠ QuestionPage.toResults ∧
    (attemptsOf dbAfter1 1).length = 1 ∧
    (okResp (submit_grammar_gender_answer 1 2 "féminin" 5 0 200 dbAfter1)).isSome
      = true ∧
    (attemptsOf dbAfter2 1).length = 2 ∧
    (findSession dbAfter2 1).map (fun s => s.total_questions) = some 1 := by
  decide

/-- C3 (amended): the question endpoint routes to results exactly when
every bank question already has an attempt in the session — the
requested count plays no role in the routing; when unattempted
questions remain, a question is served if the session's
`questions_count` is nonzero, and the handler crashes with
ZeroDivisionError computing the progress percentage if it is zero.  So
nothing stops further questions and attempts once answered_count has
reached the requested count. -/
theorem question_routing_behavior (session_id user_id pick : Nat)
    (db : DB) (sdata : SessionRow)
    (h : findUserSession db session_id user_id = some sdata) :
    ((grammar_gender_question session_id user_id pick db).1 =
        QuestionPage.toResults ↔
      ∀ q ∈ db.questions, ∃ a ∈ db.attempts,
        a.session_id = session_id ∧ a.question_id = q.id) ∧
    (unansweredQuestions db session_id ≠ [] → sdata.questions_count ≠ 0 →
      ∃ q current total pct,
        (grammar_gender_question session_id user_id pick db).1 =
          QuestionPage.page q current total pct) ∧
    (unansweredQuestions db session_id ≠ [] → sdata.questions_count = 0 →
      (grammar_gender_question session_id user_id pick db).1 =
        QuestionPage.zeroDivision) := by
  unfold grammar_gender_question
  rw [h]
  dsimp only
  cases hg : (unansweredQuestions db session_id).get?
      (pick % (unansweredQuestions db session_id).length) with
  | none =>
    rw [get?_mod_eq_none_iff] at hg
    refine ⟨⟨fun _ => (unansweredQuestions_nil_iff db session_id).mp hg,
      fun _ => rfl⟩, ?_, ?_⟩
    · intro hne _
      exact absurd hg hne
    · intro hne _
      exact absurd hg hne
  | some q =>
    have hmem : q ∈ unansweredQuestions db session_id := List.get?_mem hg
    have hnotall : ¬ ∀ q' ∈ db.questions, ∃ a ∈ db.attempts,
        a.session_id = session_id ∧ a.question_id = q'.id := by
      intro hall
      obtain ⟨hqq, hpred⟩ := List.mem_filter.mp
        (show q ∈ db.questions.filter _ from hmem)
      obtain ⟨a, hamem, ha1, ha2⟩ := hall q hqq
      simp only [Bool.not_eq_true', List.any_eq_false, Bool.and_eq_true,
        beq_iff_eq, not_and] at hpred
      exact hpred a hamem ha1 ha2
    dsimp only
    refine ⟨⟨fun habs => absurd habs (by split <;> simp),
      fun hall => absurd hall hnotall⟩, ?_, ?_⟩
    · intro _ ht
      rw [if_neg ht]
      exact ⟨q, _, _, _, rfl⟩
    · intro _ ht
      rw [if_pos ht]

/-- Witness for C3's theorem on the fresh one-question session, where
the bank is not exhausted, the count is nonzero, and a question is
served. -/
theorem question_routing_behavior_witness :
    ((grammar_gender_question 1 7 0 (dbS 1)).1 = QuestionPage.toResults ↔
      ∀ q ∈ (dbS 1).questions, ∃ a ∈ (dbS 1).attempts,
        a.session_id = 1 ∧ a.question_id = q.id) ∧
    ∃ q current total pct, (grammar_gender_question 1 7 0 (dbS 1)).1 =
      QuestionPage.page q current total pct := by
  obtain ⟨hiff, hserve, _⟩ := question_routing_behavior 1 7 0 (dbS 1)
    { id := 1, user_id := 7, session_type := "practice",
      questions_count := 1, score := 0, total_questions := 1,
      status := "active", completed_at := none }
    (by decide)
  exact ⟨hiff, hserve (by decide) (by decide)⟩

/-- C4 counterexample: the session score decreases — from 0 to −5 —
when a correct answer with 3 hints is submitted, so the score is not
non-decreasing. -/
theorem score_decrease_cex :
    (findSession (dbS 1) 1).map (fun s => s.score) = some 0 ∧
    (findSession dbNeg 1).map (fun s => s.score) = some (-5) ∧
    ((-5 : Int) < 0) := by
  decide

/-- C4 (amended): every successful submission preserves the coherence
invariant that each session's score equals the sum of its attempts'
scores, and changes the submitted session's score by exactly the
attempt's points — which may be negative, so the score need not be
non-decreasing. -/
theorem score_sum_invariant_preserved (session_id question_id : Nat)
    (ua : String) (tt hu : Int) (now : Nat) (db : DB)
    (resp : SubmitResponse) (db' : DB)
    (hinv : sessionScoreInvariant db)
    (h : submit_grammar_gender_answer session_id question_id ua tt hu now db
      = .ok (resp, db')) :
    sessionScoreInvariant db' ∧
    ∀ s' ∈ db'.sessions, s'.id = session_id →
      ∃ s ∈ db.sessions, s.id = session_id ∧
        s'.score = s.score + resp.points_earned := by
  obtain ⟨qd, s0, _, _, _, _, _, _, _, _, _, hatts, hsess⟩ :=
    submit_ok_spec h
  have hatt' := attemptsOf_eq_of_attempts_append hatts
  constructor
  · intro s' hmem'
    rw [hsess] at hmem'
    obtain ⟨s, hs, rfl⟩ := List.mem_map.mp hmem'
    by_cases hid : s.id = session_id
    · simp only [hid, beq_self_eq_true, if_true]
      rw [hatt']
      simp [hid, hinv s hs]
    · have hbeq : (s.id == session_id) = false := by simp [hid]
      simp only [hbeq, if_false]
      rw [hatt']
      have : ¬ (session_id = s.id) := fun hcc => hid hcc.symm
      simp [this, hinv s hs]
  · intro s' hmem' hid'
    rw [hsess] at hmem'
    obtain ⟨s, hs, rfl⟩ := List.mem_map.mp hmem'
    by_cases hid : s.id = session_id
    · refine ⟨s, hs, hid, ?_⟩
      simp [hid]
    · have hbeq : (s.id == session_id) = false := by simp [hid]
      rw [hbeq] at hid'
      exact absurd hid' hid

/-- Witness for C4's theorem at the hints=3 submission on the fresh
one-question session. -/
theorem score_sum_invariant_preserved_witness :
    sessionScoreInvariant dbNeg ∧
    ∀ s' ∈ dbNeg.sessions, s'.id = 1 →
      ∃ s ∈ (dbS 1).sessions, s.id = 1 ∧
        s'.score = s.score + respNeg.points_earned :=
  score_sum_invariant_preserved 1 1 "masculin" 5 3 100 (dbS 1) respNeg dbNeg
    (by unfold sessionScoreInvariant; decide) (by decide)

/-- C5 counterexample: after the one-question session completes at time
100, a later submission re-records the completion time as 200 — the
completion time is not recorded exactly once. -/
theorem completion_time_rerecorded_cex :
    (findSession dbAfter1 1).map (fun s => (s.status, s.completed_at)) =
      some ("completed", some 100) ∧
    (findSession dbAfter2 1).map (fun s => (s.status, s.completed_at)) =
      some ("completed", some 200) := by
  decide

/-- C5 (amended): on every successful submission, the submitted
session's row is set to status `completed` with the current time as
completion time whenever the response reports the session complete
(also re-recording the time on later submissions past the threshold);
when not complete, status and completion time are unchanged; rows of
other sessions are untouched; and no submission ever moves a session
away from `completed`. -/
theorem completion_update_behavior (session_id question_id : Nat)
    (ua : String) (tt hu : Int) (now : Nat) (db : DB)
    (resp : SubmitResponse) (db' : DB)
    (h : submit_grammar_gender_answer session_id question_id ua tt hu now db
      = .ok (resp, db')) :
    ∀ s ∈ db.sessions, ∃ s' ∈ db'.sessions,
      s'.id = s.id ∧
      (s.id = session_id → resp.session_complete = true →
        s'.status = "completed" ∧ s'.completed_at = some now) ∧
      (resp.session_complete = false →
        s'.status = s.status ∧ s'.completed_at = s.completed_at) ∧
      (s.id ≠ session_id → s' = s) ∧
      (s.status = "completed" → s'.status = "completed") := by
  intro s hs
  obtain ⟨qd, s0, _, _, _, _, _, _, _, _, _, _, hsess⟩ := submit_ok_spec h
  refine ⟨if s.id == session_id then
      { s with score := s.score + resp.points_earned,
               status := if resp.session_complete then "completed"
                         else s.status,
               completed_at := if resp.session_complete then some now
                               else s.completed_at }
    else s, ?_, ?_, ?_, ?_, ?_, ?_⟩
  · rw [hsess]
    exact List.mem_map_of_mem _ hs
  · by_cases hid : s.id == session_id <;> simp [hid]
  · intro hid hsc
    simp [hid, hsc]
  · intro hsc
    by_cases hid : s.id == session_id <;> simp [hid, hsc]
  · intro hne
    have hbeq : (s.id == session_id) = false := by simp [hne]
    simp [hbeq]
  · intro hst
    by_cases hid : s.id == session_id <;>
      by_cases hsc : resp.session_complete <;> simp [hid, hsc, hst]

/-- Witness for C5's theorem at the completing submission of the
one-question session: the session row ends completed at time 100. -/
theorem completion_update_behavior_witness :
    ∃ s' ∈ dbAfter1.sessions, s'.id = 1 ∧
      s'.status = "completed" ∧ s'.completed_at = some 100 := by
  obtain ⟨s', hmem, hid, h1, _, _, _⟩ :=
    completion_update_behavior 1 1 "masculin" 5 0 100 (dbS 1) resp10 dbAfter1
      (by decide)
      { id := 1, user_id := 7, session_type := "practice",
        questions_count := 1, score := 0, total_questions := 1,
        status := "active", completed_at := none }
      (by decide)
  exact ⟨s', hmem, hid, h1 rfl (by decide)⟩

/-- C7 counterexample: on a concrete session with 3 attempts (so at
least one), the results handler produces no summary at all — it raises
the unhandled TypeError summing the `attempted_at` TEXT column that
`attempt[8]` actually is under this file's schema — so no accuracy
percentage, maximum points or average time is computed, contradicting
the claim. -/
theorem results_nonempty_type_error_cex :
    grammar_gender_results 1 7 dbRes = ResultsOutcome.typeError ∧
    (attemptsOf dbRes 1).length = 3 := by
  decide

/-- C7 (amended): for every session with at least one attempt the
results summary raises an unhandled TypeError before any statistic is
rendered: `total_points` sums `attempt[8]`, which under the schema
created at src/app.py lines 269-283 is the `attempted_at` TEXT
timestamp, and Python cannot add a string to the integer 0.  The
claimed accuracy, maximum-points and average-time formulas are never
computed (the statistics code is reachable only with zero attempts). -/
theorem results_nonempty_type_error (session_id user_id : Nat) (db : DB)
    (sdata : SessionRow)
    (h1 : findUserSession db session_id user_id = some sdata)
    (h2 : attemptsOf db session_id ≠ []) :
    grammar_gender_results session_id user_id db =
      ResultsOutcome.typeError := by
  unfold grammar_gender_results
  rw [h1]
  dsimp only
  cases hA : attemptsOf db session_id with
  | nil => exact absurd hA h2
  | cons a as => rfl

/-- Witness for C7's theorem on the three-attempt session. -/
theorem results_nonempty_type_error_witness :
    grammar_gender_results 1 7 dbRes = ResultsOutcome.typeError :=
  results_nonempty_type_error 1 7 dbRes
    { id := 1, user_id := 7, session_type := "practice",
      questions_count := 3, score := 10, total_questions := 3,
      status := "completed", completed_at := some 30 }
    (by decide) (by decide)

/-- C8 counterexample: a session start with requested count 0 still
creates a Session row, and a submission with `hints_used = -1` is
accepted, earning 15 points and inserting an Attempt — invalid input is
not rejected before mutation. -/
theorem invalid_input_accepted_cex :
    (dbS 0).sessions =
      [{ id := 1, user_id := 7, session_type := "practice",
         questions_count := 0, score := 0, total_questions := 0,
         status := "active", completed_at := none }] ∧
    (okResp (submit_grammar_gender_answer 1 1 "masculin" 5 (-1) 100
      (dbS 2))).map (fun r => r.points_earned) = some 15 ∧
    dbNegHints.attempts.length = 1 := by
  decide

/-- C8 (amended): no input validation occurs — starting a practice
session appends a Session row for every requested count, including
non-positive ones, and whenever the referenced question and session
exist a submission succeeds and appends an Attempt row for every answer
string and every hints_used value, including malformed genders and
negative hint counts. -/
theorem no_input_validation :
    (∀ (uid : Nat) (c : Int) (db : DB),
      (start_grammar_gender_practice uid c db).2.sessions =
        db.sessions ++
          [{ id := db.next_session_id, user_id := uid,
             session_type := "practice", questions_count := c, score := 0,
             total_questions := c, status := "active",
             completed_at := none }]) ∧
    (∀ (session_id question_id : Nat) (ua : String) (tt hu : Int)
      (now : Nat) (db : DB) (qd : Question) (s0 : SessionRow),
      findQuestion db question_id = some qd →
      findSession db session_id = some s0 →
      ∃ resp db' a, submit_grammar_gender_answer session_id question_id ua
        tt hu now db = .ok (resp, db') ∧
        db'.attempts = db.attempts ++ [a] ∧ a.user_answer = ua ∧
        a.hints_used = hu) := by
  constructor
  · intro uid c db
    rfl
  · intro session_id question_id ua tt hu now db qd s0 hq hs
    obtain ⟨resp, db', hok⟩ := submit_ok_of_found hq hs
    obtain ⟨_, _, _, _, _, _, _, _, _, _, _, hatts, _⟩ :=
      submit_ok_spec hok
    exact ⟨resp, db', _, hok, hatts, rfl, rfl⟩

/-- Witness for C8's theorem: the negative-hints submission on the
two-question session. -/
theorem no_input_validation_witness :
    ∃ resp db' a, submit_grammar_gender_answer 1 1 "masculin" 5 (-1) 100
      (dbS 2) = .ok (resp, db') ∧
      db'.attempts = (dbS 2).attempts ++ [a] ∧ a.user_answer = "masculin" ∧
      a.hints_used = -1 :=
  no_input_validation.2 1 1 "masculin" 5 (-1) 100 (dbS 2)
    (mkQuestion 1 "chat" "masculin")
    { id := 1, user_id := 7, session_type := "practice",
      questions_count := 2, score := 0, total_questions := 2,
      status := "active", completed_at := none }
    (by decide) (by decide)

end GrammarGender
